import Mathlib

/-!
Shallow embedding of `deepchem/feat/bio_seq_featurizer.py`: the `_featurize`
methods of `SAMFeaturizer`, `BAMFeaturizer`, `CRAMFeaturizer` and
`FASTAFeaturizer`, over an explicit model of the pysam stream abstraction.

A pysam record stream is modelled as a list of `Except Err SamRecord`: an
`Except.ok` element is a record the iterator yields, an `Except.error`
element is an exception the underlying library raises at that point of the
iteration (propagated uncaught by the featurizer).  Each featurizer returns
its table of rows (or the propagated error), a flag saying whether the
stream's `close()` was executed before returning, and the trace of stream
operations it performed.
-/

namespace BioSeq

/-- An error raised by the underlying pysam library (propagated uncaught). -/
abbrev Err := String

/-- A pysam pileup read, as accessed by `BAMFeaturizer._featurize`
(`pileupread.alignment.query_sequence`, `pileupread.query_position`,
`pileupread.is_del`, `pileupread.is_refskip`, `pileupread.indel`). -/
structure PileupRead where
  alignment_query_sequence : Option String
  query_position : Option Int
  is_del : Bool
  is_refskip : Bool
  indel : Int
  deriving DecidableEq

/-- A pysam pileup column, as accessed by `BAMFeaturizer._featurize`
(`reference_name`, `reference_pos`, `nsegments`, `pileups`). -/
structure PileupColumn where
  reference_name : Option String
  reference_pos : Int
  nsegments : Int
  pileups : List PileupRead
  deriving DecidableEq

/-- One entry of the `reads` list of a pileup dict: the Python list
`[alignment.query_sequence, query_position, is_del, is_refskip, indel]`. -/
structure PileupReadEntry where
  query_sequence : Option String
  query_position : Option Int
  is_del : Bool
  is_refskip : Bool
  indel : Int
  deriving DecidableEq

/-- The `pileup_info` dict built per pileup column in
`BAMFeaturizer._featurize` (keys `name`, `pos`, `depth`, `reads`). -/
structure PileupInfo where
  name : Option String
  pos : Int
  depth : Int
  reads : List PileupReadEntry
  deriving DecidableEq

/-- A heterogeneous table cell: Python values put into feature vectors pass
through verbatim, so a cell is a string, an int, a bool, a cigar tuple list,
an int array, a pileup list, or Python `None`. -/
inductive Cell where
  | pyNone : Cell
  | str : String → Cell
  | int : Int → Cell
  | bool : Bool → Cell
  | cigar : List (Nat × Nat) → Cell
  | intArray : List Int → Cell
  | pileup : List PileupInfo → Cell
  deriving DecidableEq

/-- A feature row (one `feature_vector` of the Python code). -/
abbrev Row := List Cell

/-- A pysam alignment record, with the attributes the featurizers read.
Attributes that pysam reports as `None` for missing data are `Option`s. -/
structure SamRecord where
  query_name : Option String
  query_sequence : Option String
  query_length : Int
  reference_name : Option String
  reference_start : Int
  cigar : Option (List (Nat × Nat))
  mapping_quality : Int
  is_reverse : Bool
  query_qualities : List Int
  deriving DecidableEq

/-- A record stream: each step either yields a record or raises. -/
abbrev SamStream := List (Except Err SamRecord)

/-- Stream operations a featurizer performs, recorded as a trace. -/
inductive StreamOp where
  | read : StreamOp
  | tell : Nat → StreamOp
  | seek : Nat → StreamOp
  | pileup : StreamOp
  | close : StreamOp
  deriving DecidableEq

/-- A Python `None`-or-string attribute as a cell, passed through verbatim. -/
def optStr : Option String → Cell
  | Option.none => Cell.pyNone
  | Option.some s => Cell.str s

/-- A Python `None`-or-cigar attribute as a cell, passed through verbatim. -/
def optCigar : Option (List (Nat × Nat)) → Cell
  | Option.none => Cell.pyNone
  | Option.some c => Cell.cigar c

/-- The `feature_vector` built per record in `SAMFeaturizer._featurize`. -/
def samFeatureVector (record : SamRecord) : Row :=
  [optStr record.query_name, optStr record.query_sequence,
   Cell.int record.query_length, optStr record.reference_name,
   Cell.int record.reference_start, optCigar record.cigar,
   Cell.int record.mapping_quality]

/-- The `feature_vector` built per record in `CRAMFeaturizer._featurize`
(textually identical to the SAM one in the source). -/
def cramFeatureVector (record : SamRecord) : Row :=
  [optStr record.query_name, optStr record.query_sequence,
   Cell.int record.query_length, optStr record.reference_name,
   Cell.int record.reference_start, optCigar record.cigar,
   Cell.int record.mapping_quality]

/-- The loop-break test of the featurizers:
`self.max_records is not None and record_count >= self.max_records`. -/
def capReached (max_records : Option Int) (record_count : Int) : Bool :=
  match max_records with
  | Option.none => false
  | Option.some m => decide (m ≤ record_count)

/-- The `for record in datapoint` loop of `SAMFeaturizer._featurize`:
appends one feature vector per record, increments `record_count`, and
breaks once `capReached`.  An `Except.error` element makes the underlying
library's exception propagate, discarding rows appended so far. -/
def samLoop (max_records : Option Int) :
    SamStream → Int → Except Err (List Row) × List StreamOp
  | [], _ => (Except.ok [], [])
  | Except.error e :: _, _ => (Except.error e, [StreamOp.read])
  | Except.ok record :: rest, record_count =>
      let feature_vector := samFeatureVector record
      let rc := record_count + 1
      if capReached max_records rc then
        (Except.ok [feature_vector], [StreamOp.read])
      else
        match samLoop max_records rest rc with
        | (Except.error e, tr) => (Except.error e, StreamOp.read :: tr)
        | (Except.ok rows, tr) =>
            (Except.ok (feature_vector :: rows), StreamOp.read :: tr)

/-- The `for record in datapoint` loop of `CRAMFeaturizer._featurize`
(textually identical to the SAM one in the source). -/
def cramLoop (max_records : Option Int) :
    SamStream → Int → Except Err (List Row) × List StreamOp
  | [], _ => (Except.ok [], [])
  | Except.error e :: _, _ => (Except.error e, [StreamOp.read])
  | Except.ok record :: rest, record_count =>
      let feature_vector := cramFeatureVector record
      let rc := record_count + 1
      if capReached max_records rc then
        (Except.ok [feature_vector], [StreamOp.read])
      else
        match cramLoop max_records rest rc with
        | (Except.error e, tr) => (Except.error e, StreamOp.read :: tr)
        | (Except.ok rows, tr) =>
            (Except.ok (feature_vector :: rows), StreamOp.read :: tr)

/-- `SAMFeaturizer._featurize`: run the record loop, then `datapoint.close()`
and return `np.array(features, dtype="object")`.  `close` is only reached
when the loop exits normally; a propagated exception skips it. -/
def SAMFeaturizer.featurize (max_records : Option Int) (datapoint : SamStream) :
    Except Err (List Row) × Bool × List StreamOp :=
  match samLoop max_records datapoint 0 with
  | (Except.error e, tr) => (Except.error e, false, tr)
  | (Except.ok features, tr) =>
      (Except.ok features, true, tr ++ [StreamOp.close])

/-- `CRAMFeaturizer._featurize` (textually identical to the SAM one). -/
def CRAMFeaturizer.featurize (max_records : Option Int) (datapoint : SamStream) :
    Except Err (List Row) × Bool × List StreamOp :=
  match cramLoop max_records datapoint 0 with
  | (Except.error e, tr) => (Except.error e, false, tr)
  | (Except.ok features, tr) =>
      (Except.ok features, true, tr ++ [StreamOp.close])

/-- The rows of a loop result (empty when an exception propagated: rows
appended before the error are discarded along with it). -/
def rowsOrEmpty (r : Except Err (List Row)) : List Row :=
  match r with
  | Except.ok rows => rows
  | Except.error _ => []

/-- The rows of a featurizer result. -/
def tableRows (t : Except Err (List Row) × Bool × List StreamOp) : List Row :=
  rowsOrEmpty t.1

/-- Whether a featurizer result is a normal return (no propagated error). -/
def resultOk (r : Except Err (List Row)) : Bool :=
  match r with
  | Except.ok _ => true
  | Except.error _ => false

deriving instance DecidableEq for Except

/-- A BAM file handle's content: the record stream the iterator walks and
the pileup columns `datapoint.pileup()` yields. -/
structure BamFile where
  records : SamStream
  pcols : List PileupColumn
  deriving DecidableEq

/-- The `pileup_info` dict built from one pileup column in
`BAMFeaturizer._featurize`. -/
def pileupInfoOfColumn (pileupcolumn : PileupColumn) : PileupInfo :=
  { name := pileupcolumn.reference_name
    pos := pileupcolumn.reference_pos
    depth := pileupcolumn.nsegments
    reads := pileupcolumn.pileups.map (fun pileupread =>
      { query_sequence := pileupread.alignment_query_sequence
        query_position := pileupread.query_position
        is_del := pileupread.is_del
        is_refskip := pileupread.is_refskip
        indel := pileupread.indel }) }

/-- The pre-pass of `BAMFeaturizer._featurize`:
`initial_position = datapoint.tell()`; if `get_pileup`, one full pass over
`datapoint.pileup()` building `pileup_columns` (which moves the stream to
its end); then `datapoint.seek(initial_position)`.  Takes and returns the
stream position, and records the operation trace. -/
def BAMFeaturizer.prePass (get_pileup : Bool) (f : BamFile) (pos : Nat) :
    List PileupInfo × Nat × List StreamOp :=
  let initial_position := pos
  let step :=
    if get_pileup then
      (f.pcols.map pileupInfoOfColumn, f.records.length,
       [StreamOp.tell initial_position, StreamOp.pileup])
    else
      ([], pos, [StreamOp.tell initial_position])
  (step.1, initial_position, step.2.2 ++ [StreamOp.seek initial_position])

/-- The 9-field `feature_vector` of `BAMFeaturizer._featurize`, with
`pileup_columns` appended as a tenth field when `get_pileup` is set. -/
def bamFeatureVector (get_pileup : Bool) (pileup_columns : List PileupInfo)
    (record : SamRecord) : Row :=
  let base : Row :=
    [optStr record.query_name, optStr record.query_sequence,
     Cell.int record.query_length, optStr record.reference_name,
     Cell.int record.reference_start, optCigar record.cigar,
     Cell.int record.mapping_quality, Cell.bool record.is_reverse,
     Cell.intArray record.query_qualities]
  if get_pileup then base ++ [Cell.pileup pileup_columns] else base

/-- The main `for record in datapoint` loop of `BAMFeaturizer._featurize`:
per record, `initial_position = datapoint.tell()` (the position right after
the record was fetched), build the feature vector, append, increment
`record_count`, `datapoint.seek(initial_position)` (a round-trip back to
the same position), and break once `capReached`. -/
def bamLoop (max_records : Option Int) (get_pileup : Bool)
    (pileup_columns : List PileupInfo) :
    SamStream → Nat → Int → Except Err (List Row) × Nat × List StreamOp
  | [], pos, _ => (Except.ok [], pos, [])
  | Except.error e :: _, pos, _ => (Except.error e, pos + 1, [StreamOp.read])
  | Except.ok record :: rest, pos, record_count =>
      let pos1 := pos + 1
      let initial_position := pos1
      let feature_vector := bamFeatureVector get_pileup pileup_columns record
      let rc := record_count + 1
      let ops := [StreamOp.read, StreamOp.tell initial_position,
                  StreamOp.seek initial_position]
      if capReached max_records rc then
        (Except.ok [feature_vector], pos1, ops)
      else
        match bamLoop max_records get_pileup pileup_columns rest pos1 rc with
        | (Except.error e, posF, tr) => (Except.error e, posF, ops ++ tr)
        | (Except.ok rows, posF, tr) =>
            (Except.ok (feature_vector :: rows), posF, ops ++ tr)

/-- `BAMFeaturizer._featurize`: pileup pre-pass, main record loop, then
`datapoint.close()` (skipped when a propagated exception exits early). -/
def BAMFeaturizer.featurize (max_records : Option Int) (get_pileup : Bool)
    (f : BamFile) : Except Err (List Row) × Bool × List StreamOp :=
  let pre := BAMFeaturizer.prePass get_pileup f 0
  match bamLoop max_records get_pileup pre.1
      (f.records.drop pre.2.1) pre.2.1 0 with
  | (Except.error e, _, tr) => (Except.error e, false, pre.2.2 ++ tr)
  | (Except.ok features, _, tr) =>
      (Except.ok features, true, pre.2.2 ++ tr ++ [StreamOp.close])

/-- A FASTA sequence entry as yielded by `pysam.FastxFile`. -/
structure FastxEntry where
  name : String
  sequence : String
  deriving DecidableEq

/-- The row `[entry.name, entry.sequence]` of `FASTAFeaturizer._featurize`. -/
def fastaRow (entry : FastxEntry) : Row :=
  [Cell.str entry.name, Cell.str entry.sequence]

/-- The `for entry in fasta` loop of `FASTAFeaturizer._featurize`: no cap,
no pileup, no filtering; an error propagates, discarding appended rows. -/
def fastaLoop : List (Except Err FastxEntry) → Except Err (List Row)
  | [] => Except.ok []
  | Except.error e :: _ => Except.error e
  | Except.ok entry :: rest =>
      match fastaLoop rest with
      | Except.error e => Except.error e
      | Except.ok rows => Except.ok (fastaRow entry :: rows)

/-- `FASTAFeaturizer._featurize`: the file is opened inside
`with pysam.FastxFile(datapoint) as fasta`, so the handle is closed on every
exit path, error or not — the Bool (closed) component is always `true`. -/
def FASTAFeaturizer.featurize (datapoint : List (Except Err FastxEntry)) :
    Except Err (List Row) × Bool :=
  (fastaLoop datapoint, true)

/-- Models the shape of `np.array(rows, dtype="object")` for a rectangular
list of rows: numpy gives the empty list the 1-D shape `(0,)`, and a
non-empty list of equal-length rows the 2-D shape `(nrows, ncols)`. -/
def npShape (rows : List Row) : List Nat :=
  match rows with
  | [] => [0]
  | r :: _ => [rows.length, r.length]

/-- A concrete record used for counterexamples and witnesses. -/
def sampleRecord : SamRecord :=
  { query_name := Option.some "read1"
    query_sequence := Option.some "ACGT"
    query_length := 4
    reference_name := Option.some "chr1"
    reference_start := 100
    cigar := Option.some [(0, 4)]
    mapping_quality := 60
    is_reverse := false
    query_qualities := [30, 30, 30, 30] }

/-- A stream of plain records, none of which raises. -/
def okStream (recs : List SamRecord) : SamStream :=
  recs.map Except.ok

/-- A concrete stream whose first iteration step raises an exception from
the underlying library (e.g. a truncated file). -/
def errStream : SamStream :=
  [Except.error "truncated file"]

/-- A concrete 5-record list used for witnesses. -/
def recs5 : List SamRecord :=
  List.replicate 5 sampleRecord

/-- The SAM and CRAM feature vectors are the same function. -/
theorem samFeatureVector_eq_cram (record : SamRecord) :
    samFeatureVector record = cramFeatureVector record := rfl

/-- The SAM and CRAM record loops agree on every stream and counter. -/
theorem samLoop_eq_cramLoop (max_records : Option Int) :
    ∀ (l : SamStream) (record_count : Int),
      samLoop max_records l record_count = cramLoop max_records l record_count
  | [], _ => rfl
  | Except.error _ :: _, _ => rfl
  | Except.ok record :: rest, record_count => by
      simp only [samLoop, cramLoop, samFeatureVector_eq_cram]
      rw [samLoop_eq_cramLoop max_records rest (record_count + 1)]

/-- With no cap, the loop maps `samFeatureVector` over the whole stream. -/
theorem samLoop_none_eq (recs : List SamRecord) :
    ∀ record_count : Int,
      samLoop Option.none (okStream recs) record_count =
        (Except.ok (recs.map samFeatureVector),
         List.replicate recs.length StreamOp.read) := by
  induction recs with
  | nil => intro c; rfl
  | cons r rest ih =>
      intro c
      simp only [okStream, List.map_cons, samLoop, capReached, if_false,
        Bool.false_eq_true]
      rw [show (rest.map Except.ok) = okStream rest from rfl, ih (c + 1)]
      simp [List.replicate_succ]

/-- With a cap not yet reached, the loop takes `min (m - c).toNat length`
records, in stream order, and maps `samFeatureVector` over them. -/
theorem samLoop_some_eq (m : Int) (recs : List SamRecord) :
    ∀ record_count : Int, record_count < m →
      samLoop (Option.some m) (okStream recs) record_count =
        (Except.ok (((recs.take (min (m - record_count).toNat recs.length))).map
            samFeatureVector),
         List.replicate (min (m - record_count).toNat recs.length)
           StreamOp.read) := by
  induction recs with
  | nil => intro c _; simp [okStream, samLoop]
  | cons r rest ih =>
      intro c hc
      simp only [okStream, List.map_cons, samLoop]
      by_cases hm : m ≤ c + 1
      · have h1 : (m - c).toNat = 1 := by omega
        have h2 : min 1 (rest.length + 1) = 1 := by omega
        simp [capReached, hm, h1, h2, List.take_succ_cons]
      · have hc1 : c + 1 < m := by omega
        have hcap : capReached (Option.some m) (c + 1) = false := by
          simp [capReached]; omega
        rw [show (rest.map Except.ok) = okStream rest from rfl]
        simp only [hcap, Bool.false_eq_true, if_false, ih (c + 1) hc1]
        have h3 : min (m - c).toNat (rest.length + 1) =
            min (m - (c + 1)).toNat rest.length + 1 := by omega
        simp [h3, List.take_succ_cons, List.replicate_succ]

/-- On a stream of plain entries, the FASTA loop maps `fastaRow`. -/
theorem fastaLoop_ok (entries : List FastxEntry) :
    fastaLoop (entries.map Except.ok) = Except.ok (entries.map fastaRow) := by
  induction entries with
  | nil => rfl
  | cons e rest ih => simp [fastaLoop, ih]

/-- Every row list the BAM loop produces is the image under
`bamFeatureVector` (with the one pileup list it was given) of some list of
consumed records; an error produces no rows at all. -/
theorem bamLoop_rows_shape (max_records : Option Int) (get_pileup : Bool)
    (pileup_columns : List PileupInfo) :
    ∀ (l : SamStream) (pos : Nat) (record_count : Int),
      ∃ consumed : List SamRecord,
        rowsOrEmpty (bamLoop max_records get_pileup pileup_columns l pos
          record_count).1 =
          consumed.map (bamFeatureVector get_pileup pileup_columns)
  | [], _, _ => ⟨[], rfl⟩
  | Except.error e :: _, _, _ => ⟨[], rfl⟩
  | Except.ok record :: rest, pos, record_count => by
      simp only [bamLoop]
      by_cases hcap : capReached max_records (record_count + 1) = true
      · rw [if_pos hcap]
        exact ⟨[record], rfl⟩
      · rw [if_neg hcap]
        rcases hrec : bamLoop max_records get_pileup pileup_columns rest
            (pos + 1) (record_count + 1) with ⟨res, posR, trR⟩
        have hrest := bamLoop_rows_shape max_records get_pileup pileup_columns
          rest (pos + 1) (record_count + 1)
        rw [hrec] at hrest
        cases res with
        | error e => exact ⟨[], rfl⟩
        | ok rows1 =>
            rcases hrest with ⟨consumed1, hconsumed⟩
            simp only [rowsOrEmpty] at hconsumed
            exact ⟨record :: consumed1, by simp [rowsOrEmpty, hconsumed]⟩

/-- The BAM main loop never performs a `pileup` stream operation. -/
theorem bamLoop_no_pileup (max_records : Option Int) (get_pileup : Bool)
    (pileup_columns : List PileupInfo) :
    ∀ (l : SamStream) (pos : Nat) (record_count : Int),
      (bamLoop max_records get_pileup pileup_columns l pos
        record_count).2.2.count StreamOp.pileup = 0
  | [], _, _ => rfl
  | Except.error _ :: _, _, _ => rfl
  | Except.ok record :: rest, pos, record_count => by
      simp only [bamLoop]
      by_cases hcap : capReached max_records (record_count + 1) = true
      · rw [if_pos hcap]; rfl
      · rw [if_neg hcap]
        rcases hrec : bamLoop max_records get_pileup pileup_columns rest
            (pos + 1) (record_count + 1) with ⟨res, posR, trR⟩
        have h0 : trR.count StreamOp.pileup = 0 := by
          have := bamLoop_no_pileup max_records get_pileup pileup_columns rest
            (pos + 1) (record_count + 1)
          rw [hrec] at this
          exact this
        cases res <;> simp [List.count_append, h0, List.count_cons]

/-- The SAM featurizer closes the stream exactly when no error propagates. -/
theorem sam_closed_iff_ok (max_records : Option Int) (datapoint : SamStream) :
    (SAMFeaturizer.featurize max_records datapoint).2.1 =
      resultOk (SAMFeaturizer.featurize max_records datapoint).1 := by
  rcases h : samLoop max_records datapoint 0 with ⟨res, tr⟩
  cases res <;> simp [SAMFeaturizer.featurize, h, resultOk]

/-- The CRAM featurizer closes the stream exactly when no error propagates. -/
theorem cram_closed_iff_ok (max_records : Option Int) (datapoint : SamStream) :
    (CRAMFeaturizer.featurize max_records datapoint).2.1 =
      resultOk (CRAMFeaturizer.featurize max_records datapoint).1 := by
  rcases h : cramLoop max_records datapoint 0 with ⟨res, tr⟩
  cases res <;> simp [CRAMFeaturizer.featurize, h, resultOk]

/-- The BAM featurizer closes the stream exactly when no error propagates. -/
theorem bam_closed_iff_ok (max_records : Option Int) (get_pileup : Bool)
    (f : BamFile) :
    (BAMFeaturizer.featurize max_records get_pileup f).2.1 =
      resultOk (BAMFeaturizer.featurize max_records get_pileup f).1 := by
  rcases h : bamLoop max_records get_pileup
      (BAMFeaturizer.prePass get_pileup f 0).1
      (f.records.drop (BAMFeaturizer.prePass get_pileup f 0).2.1)
      (BAMFeaturizer.prePass get_pileup f 0).2.1 0 with ⟨res, posF, tr⟩
  cases res <;> simp [BAMFeaturizer.featurize, h, resultOk]

/-- The two featurizers as whole functions agree (helper). -/
theorem featurize_sam_eq_cram (max_records : Option Int)
    (datapoint : SamStream) :
    SAMFeaturizer.featurize max_records datapoint =
      CRAMFeaturizer.featurize max_records datapoint := by
  simp [SAMFeaturizer.featurize, CRAMFeaturizer.featurize,
    samLoop_eq_cramLoop]

/-- The SAM featurizer with a positive cap, on an error-free stream:
the first `min cap length` records in order, stream closed (helper). -/
theorem sam_featurize_some (m : Int) (recs : List SamRecord) (h : 0 < m) :
    SAMFeaturizer.featurize (Option.some m) (okStream recs) =
      (Except.ok ((recs.take (min m.toNat recs.length)).map samFeatureVector),
       true,
       List.replicate (min m.toNat recs.length) StreamOp.read ++
         [StreamOp.close]) := by
  have hsome := samLoop_some_eq m recs 0 h
  rw [show m - 0 = m from by omega] at hsome
  simp [SAMFeaturizer.featurize, hsome]

/-- The SAM featurizer without a cap, on an error-free stream: all records
in order, stream closed (helper). -/
theorem sam_featurize_none (recs : List SamRecord) :
    SAMFeaturizer.featurize Option.none (okStream recs) =
      (Except.ok (recs.map samFeatureVector), true,
       List.replicate recs.length StreamOp.read ++ [StreamOp.close]) := by
  simp [SAMFeaturizer.featurize, samLoop_none_eq recs 0]

/-- C8: the SAM and CRAM extractors are extensionally equal: for every
record stream and every `max_records` value, `SAMFeaturizer._featurize` and
`CRAMFeaturizer._featurize` produce identical output tables, the same
closed-flag, and the same trace of stream operations. -/
theorem c8_sam_cram_equal (max_records : Option Int) (datapoint : SamStream) :
    SAMFeaturizer.featurize max_records datapoint =
      CRAMFeaturizer.featurize max_records datapoint :=
  featurize_sam_eq_cram max_records datapoint

/-- C7: for every FASTA file, the output table has exactly one row per
sequence entry, in file order, each row being exactly the pair
`[name, sequence]`; there is no record cap, pileup, or filtering, and the
scoped file handle is closed. -/
theorem c7_fasta_rows (entries : List FastxEntry) :
    FASTAFeaturizer.featurize (entries.map Except.ok) =
      (Except.ok (entries.map (fun entry =>
        [Cell.str entry.name, Cell.str entry.sequence])), true) ∧
    (entries.map (fun entry =>
      [Cell.str entry.name, Cell.str entry.sequence])).length =
        entries.length := by
  constructor
  · have h := fastaLoop_ok entries
    simp only [FASTAFeaturizer.featurize, h]
    rfl
  · simp

/-- C5: for every BAM file and starting position, the stream position
right after the pileup pre-pass (with `get_pileup = true`) equals the
position recorded by `tell()` right before it: the tell/seek pair
round-trips the position. -/
theorem c5_prepass_position_roundtrip (f : BamFile) (pos : Nat) :
    (BAMFeaturizer.prePass true f pos).2.1 = pos := rfl

/-- C2 (amended): the stream is closed before returning exactly on the
normal exit paths (cap reached or stream exhausted) for SAM, BAM and CRAM;
when iteration raises, the exception propagates and `close()` is never
reached.  Only the FASTA featurizer, whose handle lives in a scoped `with`
block, closes on every path including errors. -/
theorem c2_amended_close_on_success (max_records : Option Int)
    (get_pileup : Bool) (datapoint : SamStream) (f : BamFile)
    (fdata : List (Except Err FastxEntry)) :
    (SAMFeaturizer.featurize max_records datapoint).2.1 =
      resultOk (SAMFeaturizer.featurize max_records datapoint).1 ∧
    (CRAMFeaturizer.featurize max_records datapoint).2.1 =
      resultOk (CRAMFeaturizer.featurize max_records datapoint).1 ∧
    (BAMFeaturizer.featurize max_records get_pileup f).2.1 =
      resultOk (BAMFeaturizer.featurize max_records get_pileup f).1 ∧
    (FASTAFeaturizer.featurize fdata).2 = true :=
  ⟨sam_closed_iff_ok max_records datapoint,
   cram_closed_iff_ok max_records datapoint,
   bam_closed_iff_ok max_records get_pileup f, rfl⟩

/-- C2 (counterexample): on a stream whose iteration raises, the SAM
extractor propagates the error without ever closing the stream — the
handle is leaked, contradicting the claim's failure-path clause. -/
theorem c2_counterexample :
    (SAMFeaturizer.featurize Option.none errStream).2.1 = false ∧
    resultOk (SAMFeaturizer.featurize Option.none errStream).1 = false := by
  exact ⟨rfl, rfl⟩

/-- C10: on an input with zero records, every extractor returns an empty
row list, and the modelled `np.array` of it has the 1-D shape `(0,)` — a
shape list of length 1 — not a zero-row table of the documented arity. -/
theorem c10_empty_input_one_dim (max_records : Option Int)
    (get_pileup : Bool) (pcols : List PileupColumn) :
    (SAMFeaturizer.featurize max_records []).1 = Except.ok [] ∧
    (CRAMFeaturizer.featurize max_records []).1 = Except.ok [] ∧
    (BAMFeaturizer.featurize max_records get_pileup
      { records := [], pcols := pcols }).1 = Except.ok [] ∧
    (FASTAFeaturizer.featurize []).1 = Except.ok [] ∧
    npShape (tableRows (SAMFeaturizer.featurize max_records [])) = [0] ∧
    (npShape (tableRows (SAMFeaturizer.featurize max_records []))).length
      = 1 := by
  have hbam : (BAMFeaturizer.featurize max_records get_pileup
      { records := [], pcols := pcols }).1 = Except.ok [] := by
    cases get_pileup <;> rfl
  exact ⟨rfl, rfl, hbam, rfl, rfl, rfl⟩

/-- C1 (counterexample): with `max_records = 0` on a stream holding one
record, the SAM extractor returns a one-row table, not an empty one — the
cap test runs only after a row has been appended. -/
theorem c1_counterexample :
    tableRows (SAMFeaturizer.featurize (Option.some 0)
      [Except.ok sampleRecord]) = [samFeatureVector sampleRecord] ∧
    (tableRows (SAMFeaturizer.featurize (Option.some 0)
      [Except.ok sampleRecord])).length = 1 ∧
    decide (tableRows (SAMFeaturizer.featurize (Option.some 0)
      [Except.ok sampleRecord]) = []) = false :=
  ⟨rfl, rfl, by decide⟩

/-- C1 (amended): `max_records = 0` yields an empty table (and a closed
stream) only when the stream itself is empty; on a non-empty stream the
SAM/BAM/CRAM extractor reads the first record and returns a one-row table,
still closing the stream, because the cap comparison happens only after a
row has been appended. -/
theorem c1_amended_max_records_zero (r : SamRecord) (rest : SamStream)
    (get_pileup : Bool) (pcols : List PileupColumn) :
    SAMFeaturizer.featurize (Option.some 0) [] =
      (Except.ok [], true, [StreamOp.close]) ∧
    (tableRows (SAMFeaturizer.featurize (Option.some 0)
      (Except.ok r :: rest))).length = 1 ∧
    (SAMFeaturizer.featurize (Option.some 0) (Except.ok r :: rest)).2.1 =
      true ∧
    (tableRows (CRAMFeaturizer.featurize (Option.some 0)
      (Except.ok r :: rest))).length = 1 ∧
    (CRAMFeaturizer.featurize (Option.some 0) (Except.ok r :: rest)).2.1 =
      true ∧
    (tableRows (BAMFeaturizer.featurize (Option.some 0) get_pileup
      { records := Except.ok r :: rest, pcols := pcols })).length = 1 ∧
    (BAMFeaturizer.featurize (Option.some 0) get_pileup
      { records := Except.ok r :: rest, pcols := pcols }).2.1 = true := by
  refine ⟨rfl, rfl, rfl, rfl, rfl, ?_, ?_⟩ <;> cases get_pileup <;> rfl

/-- C9: with any cap `m ≤ 0` (zero or negative) and a non-empty stream,
the SAM/BAM/CRAM extractor reads the first record and returns exactly one
row, because `record_count >= max_records` is only tested after the append. -/
theorem c9_nonpositive_cap_one_row (m : Int) (hm : m ≤ 0) (r : SamRecord)
    (rest : SamStream) (get_pileup : Bool) (pcols : List PileupColumn) :
    (SAMFeaturizer.featurize (Option.some m) (Except.ok r :: rest)).1 =
      Except.ok [samFeatureVector r] ∧
    (CRAMFeaturizer.featurize (Option.some m) (Except.ok r :: rest)).1 =
      Except.ok [cramFeatureVector r] ∧
    (tableRows (SAMFeaturizer.featurize (Option.some m)
      (Except.ok r :: rest))).length = 1 ∧
    (tableRows (BAMFeaturizer.featurize (Option.some m) get_pileup
      { records := Except.ok r :: rest, pcols := pcols })).length = 1 := by
  have hcap : capReached (Option.some m) 1 = true := by
    simp [capReached]; omega
  refine ⟨?_, ?_, ?_, ?_⟩
  · simp [SAMFeaturizer.featurize, samLoop, hcap]
  · simp [CRAMFeaturizer.featurize, cramLoop, hcap]
  · simp [SAMFeaturizer.featurize, samLoop, hcap, tableRows, rowsOrEmpty]
  · cases get_pileup <;>
      simp [BAMFeaturizer.featurize, BAMFeaturizer.prePass, bamLoop, hcap,
        tableRows, rowsOrEmpty]

/-- C9 (witness): cap `-1` on a one-record stream gives exactly one row. -/
theorem c9_witness :
    (-1 : Int) ≤ 0 ∧
    ((SAMFeaturizer.featurize (Option.some (-1))
        (Except.ok sampleRecord :: [])).1 =
      Except.ok [samFeatureVector sampleRecord] ∧
    (CRAMFeaturizer.featurize (Option.some (-1))
        (Except.ok sampleRecord :: [])).1 =
      Except.ok [cramFeatureVector sampleRecord] ∧
    (tableRows (SAMFeaturizer.featurize (Option.some (-1))
      (Except.ok sampleRecord :: []))).length = 1 ∧
    (tableRows (BAMFeaturizer.featurize (Option.some (-1)) false
      { records := Except.ok sampleRecord :: [], pcols := [] })).length
        = 1) :=
  ⟨by decide,
   c9_nonpositive_cap_one_row (-1) (by decide) sampleRecord [] false []⟩

/-- C3 (counterexample): with `max_records = 0` (a set value) on a
one-record stream, the row count is 1, which is not `≤ 0`. -/
theorem c3_counterexample :
    (tableRows (SAMFeaturizer.featurize (Option.some 0)
      (okStream [sampleRecord]))).length = 1 ∧
    decide (((tableRows (SAMFeaturizer.featurize (Option.some 0)
      (okStream [sampleRecord]))).length : Int) ≤ 0) = false :=
  ⟨rfl, by decide⟩

/-- C3 (amended): for an error-free stream, the row count is
`min max_records total` — hence at most `max_records` — whenever the set
cap is at least 1; with the cap unset the row count equals the stream's
total record count.  (At a set cap of 0 the bound fails: see the
counterexample.) -/
theorem c3_amended_row_count (recs : List SamRecord) (m : Int)
    (hm : 1 ≤ m) :
    (tableRows (SAMFeaturizer.featurize (Option.some m)
      (okStream recs))).length = min m.toNat recs.length ∧
    (((tableRows (SAMFeaturizer.featurize (Option.some m)
      (okStream recs))).length : Int)) ≤ m ∧
    (tableRows (SAMFeaturizer.featurize Option.none
      (okStream recs))).length = recs.length ∧
    (tableRows (CRAMFeaturizer.featurize (Option.some m)
      (okStream recs))).length = min m.toNat recs.length ∧
    (tableRows (CRAMFeaturizer.featurize Option.none
      (okStream recs))).length = recs.length := by
  have h0 : (0 : Int) < m := by omega
  have hs := sam_featurize_some m recs h0
  have hn := sam_featurize_none recs
  have hcs := featurize_sam_eq_cram (Option.some m) (okStream recs)
  have hcn := featurize_sam_eq_cram Option.none (okStream recs)
  refine ⟨?_, ?_, ?_, ?_, ?_⟩
  · simp [tableRows, rowsOrEmpty, hs]
  · simp [tableRows, rowsOrEmpty, hs]; omega
  · simp [tableRows, rowsOrEmpty, hn]
  · simp [tableRows, rowsOrEmpty, ← hcs, hs]
  · simp [tableRows, rowsOrEmpty, ← hcn, hn]

/-- C3 (witness): a 5-record stream with cap 3 gives exactly 3 rows. -/
theorem c3_witness :
    1 ≤ (3 : Int) ∧
    ((tableRows (SAMFeaturizer.featurize (Option.some 3)
      (okStream recs5))).length = min (3 : Int).toNat recs5.length ∧
    (((tableRows (SAMFeaturizer.featurize (Option.some 3)
      (okStream recs5))).length : Int)) ≤ 3 ∧
    (tableRows (SAMFeaturizer.featurize Option.none
      (okStream recs5))).length = recs5.length ∧
    (tableRows (CRAMFeaturizer.featurize (Option.some 3)
      (okStream recs5))).length = min (3 : Int).toNat recs5.length ∧
    (tableRows (CRAMFeaturizer.featurize Option.none
      (okStream recs5))).length = recs5.length) :=
  ⟨by decide, c3_amended_row_count recs5 3 (by decide)⟩

/-- C6: on an error-free stream, the rows the SAM and CRAM extractors emit
are exactly the 7-field feature vectors of an initial segment of the
records, in stream order, each field passed through verbatim. -/
theorem c6_rows_verbatim_in_order (max_records : Option Int)
    (recs : List SamRecord) :
    ∃ n : Nat,
      (SAMFeaturizer.featurize max_records (okStream recs)).1 =
        Except.ok ((recs.take n).map samFeatureVector) ∧
      (CRAMFeaturizer.featurize max_records (okStream recs)).1 =
        Except.ok ((recs.take n).map cramFeatureVector) := by
  have hc := featurize_sam_eq_cram max_records (okStream recs)
  cases max_records with
  | none =>
      refine ⟨recs.length, ?_, ?_⟩
      · rw [sam_featurize_none recs]
        simp [List.take_length]
      · rw [← hc, sam_featurize_none recs]
        simp [List.take_length]
        exact fun a _ => rfl
  | some m =>
      by_cases h0 : (0 : Int) < m
      · refine ⟨min m.toNat recs.length, ?_, ?_⟩
        · rw [sam_featurize_some m recs h0]
        · rw [← hc, sam_featurize_some m recs h0]
          rfl
      · cases recs with
        | nil => exact ⟨0, rfl, rfl⟩
        | cons r rest =>
            have hcap : capReached (Option.some m) 1 = true := by
              simp [capReached]; omega
            refine ⟨1, ?_, ?_⟩
            · simp [SAMFeaturizer.featurize, okStream, samLoop, hcap,
                List.take_succ_cons]
            · rw [← hc]
              simp [SAMFeaturizer.featurize, okStream, samLoop, hcap,
                List.take_succ_cons]
              rfl

/-- C4: with `get_pileup = true` the BAM extractor performs exactly one
`pileup()` stream operation, before any record read (the trace starts
`tell 0, pileup, seek 0` and the rest of the trace holds no pileup
operation), and every output row is a feature vector carrying the one
pileup list — whose last field is that identical list. -/
theorem c4_pileup_once_attached (max_records : Option Int) (f : BamFile) :
    (BAMFeaturizer.featurize max_records true f).2.2.take 3 =
      [StreamOp.tell 0, StreamOp.pileup, StreamOp.seek 0] ∧
    ((BAMFeaturizer.featurize max_records true f).2.2.drop 3).count
      StreamOp.pileup = 0 ∧
    (∃ consumed : List SamRecord,
      tableRows (BAMFeaturizer.featurize max_records true f) =
        consumed.map
          (bamFeatureVector true (f.pcols.map pileupInfoOfColumn))) ∧
    (∀ (pileup_columns : List PileupInfo) (record : SamRecord),
      (bamFeatureVector true pileup_columns record).getLast? =
        Option.some (Cell.pileup pileup_columns)) := by
  have hnp := bamLoop_no_pileup max_records true
    (f.pcols.map pileupInfoOfColumn) f.records 0 0
  have hshape := bamLoop_rows_shape max_records true
    (f.pcols.map pileupInfoOfColumn) f.records 0 0
  rcases h : bamLoop max_records true (f.pcols.map pileupInfoOfColumn)
      f.records 0 0 with ⟨res, posF, tr⟩
  rw [h] at hnp hshape
  have hfeat : BAMFeaturizer.featurize max_records true f =
      match (res, posF, tr) with
      | (Except.error e, _, trE) =>
          (Except.error e, false,
           [StreamOp.tell 0, StreamOp.pileup, StreamOp.seek 0] ++ trE)
      | (Except.ok features, _, trF) =>
          (Except.ok features, true,
           [StreamOp.tell 0, StreamOp.pileup, StreamOp.seek 0] ++ trF ++
             [StreamOp.close]) := by
    rw [show BAMFeaturizer.featurize max_records true f =
        (match bamLoop max_records true (f.pcols.map pileupInfoOfColumn)
            f.records 0 0 with
        | (Except.error e, _, trE) =>
            (Except.error e, false,
             [StreamOp.tell 0, StreamOp.pileup, StreamOp.seek 0] ++ trE)
        | (Except.ok features, _, trF) =>
            (Except.ok features, true,
             [StreamOp.tell 0, StreamOp.pileup, StreamOp.seek 0] ++ trF ++
               [StreamOp.close])) from rfl, h]
  refine ⟨?_, ?_, ?_, fun pileup_columns record => rfl⟩
  · cases res <;> simp [hfeat, List.take_succ_cons]
  · cases res <;>
      simp [hfeat, List.drop_succ_cons, List.count_append, hnp,
        List.count_cons, List.count_nil]
  · cases res with
    | error e =>
        exact ⟨[], by simp [hfeat, tableRows, rowsOrEmpty]⟩
    | ok rows =>
        rcases hshape with ⟨consumed, hconsumed⟩
        simp only [rowsOrEmpty] at hconsumed
        exact ⟨consumed, by simp [hfeat, tableRows, rowsOrEmpty, hconsumed]⟩

end BioSeq
